import Mathlib

/-!
Shallow embedding of the `ice-experiment-analyzer` repository
(`src/ice_analyzer`): the four format parsers (`dewesoft_reader.read_data`,
`sbe_reader.read_sbe_data`, `sbe_w_density_reader.process_sbe37cnv_data`,
`tstick_reader.read_tstick_data`), the three nearest-timestamp locators
(`find_closest_timestamp`, `find_closest_density`, `find_closest_tstick`) and
the orchestrator join logic of `main.py` (`_load_environmental_data`,
`_find_closest_measurements`, `_process_test_file`,
`process_single_experiment`).

Modelling conventions:
* a file is a `List String` of its lines; a glob expansion is a
  `List (List String)` of the matched files' contents, already in the sorted
  order produced by `sorted(glob.glob(...))`;
* timestamps are microseconds since 0001-01-01 00:00:00 as `Int`
  (`np.datetime64` / `pandas.Timestamp` values; only differences and
  per-example values matter, so the epoch choice is irrelevant);
* machine floats are modelled as the exact rational type `Q` below (the data values of the claims are
  exactly representable decimals);
* Python exceptions are modelled with `Except`/`Option`: each constructor of
  an error inductive names the concrete exception raised by the source.
-/

deriving instance DecidableEq for Except

namespace IceAnalyzer

/-! ### Calendar arithmetic (model of `datetime` / `pandas.Timestamp`) -/

def isLeap (y : Nat) : Bool :=
  (y % 4 == 0 && y % 100 != 0) || y % 400 == 0

def daysInMonth (y m : Nat) : Nat :=
  if m == 2 then (if isLeap y then 29 else 28)
  else if m == 4 || m == 6 || m == 9 || m == 11 then 30
  else 31

def daysBeforeMonth (y m : Nat) : Nat :=
  (List.range m).foldl (fun acc k => if 1 ≤ k then acc + daysInMonth y k else acc) 0

/-- Days from 0001-01-01 to the civil date `y-m-d` (the date is assumed valid). -/
def daysFromCivil (y m d : Nat) : Nat :=
  365 * (y - 1) + (y - 1) / 4 - (y - 1) / 100 + (y - 1) / 400 + daysBeforeMonth y m + (d - 1)

/-- Microseconds from 0001-01-01 00:00:00 to `y-m-d hh:mi:ss.us`. -/
def mkTs (y m d hh mi ss us : Nat) : Int :=
  (((daysFromCivil y m d) * 86400 + hh * 3600 + mi * 60 + ss) * 1000000 + us : Nat)

def validDate (y m d : Nat) : Bool :=
  1 ≤ y && 1 ≤ m && m ≤ 12 && 1 ≤ d && d ≤ daysInMonth y m

def validTime (hh mi ss : Nat) : Bool :=
  hh < 24 && mi < 60 && ss < 60

structure DateParts where
  year : Nat
  month : Nat
  day : Nat
  hour : Nat
  minute : Nat
  second : Nat
  micro : Nat
deriving DecidableEq

/-- Inverse of `daysFromCivil` (civil date from a day count since 0001-01-01),
the standard era-based algorithm. -/
def civilFromDays (days : Nat) : Nat × Nat × Nat :=
  let z := days + 306
  let era := z / 146097
  let doe := z % 146097
  let yoe := (doe - doe / 1460 + doe / 36524 - doe / 146096) / 365
  let y0 := yoe + era * 400
  let doy := doe - (365 * yoe + yoe / 4 - yoe / 100)
  let mp := (5 * doy + 2) / 153
  let d := doy - (153 * mp + 2) / 5 + 1
  let m := if mp < 10 then mp + 3 else mp - 9
  (if m ≤ 2 then y0 + 1 else y0, m, d)

def usToParts (n : Nat) : DateParts :=
  let us := n % 1000000
  let totalSec := n / 1000000
  let ss := totalSec % 60
  let mi := totalSec / 60 % 60
  let hh := totalSec / 3600 % 24
  let days := totalSec / 86400
  let ymd := civilFromDays days
  ⟨ymd.1, ymd.2.1, ymd.2.2, hh, mi, ss, us⟩

def pad2 (n : Nat) : String :=
  if n < 10 then "0" ++ toString n else toString n

def pad4 (n : Nat) : String :=
  if n < 10 then "000" ++ toString n
  else if n < 100 then "00" ++ toString n
  else if n < 1000 then "0" ++ toString n
  else toString n

/-! ### Character-list string utilities

Kernel-reducible replacements for Python's `str.split`, `str.strip`,
`str.lower`, `str.startswith`, operating on `String.data`. -/

def ofChars (cs : List Char) : String := ⟨cs⟩

/-- Leftmost occurrence split: `some (before, after)` around the first
occurrence of `sep`, or `none`. -/
def splitFirst (sep : List Char) : List Char → Option (List Char × List Char)
  | [] => none
  | c :: rest =>
      if sep.isPrefixOf (c :: rest) then some ([], (c :: rest).drop sep.length)
      else (splitFirst sep rest).map (fun p => (c :: p.1, p.2))

def splitOnGo (sep : List Char) : Nat → List Char → List (List Char)
  | 0, cs => [cs]
  | fuel + 1, cs =>
      match splitFirst sep cs with
      | none => [cs]
      | some (pre, post) => pre :: splitOnGo sep fuel post

/-- Python `s.split(sep)` for a nonempty separator. -/
def splitOnL (sep cs : List Char) : List (List Char) := splitOnGo sep cs.length cs

def splitOnS (sep : String) (s : String) : List String :=
  (splitOnL sep.data s.data).map ofChars

/-- Python `s.strip()`. -/
def trimChars (cs : List Char) : List Char :=
  ((cs.dropWhile Char.isWhitespace).reverse.dropWhile Char.isWhitespace).reverse

def trimS (s : String) : String := ofChars (trimChars s.data)

/-- Python `s.strip(c)` for a single strip character. -/
def stripCharBoth (c : Char) (s : String) : String :=
  ofChars (((s.data.dropWhile (· = c)).reverse.dropWhile (· = c)).reverse)

def lowerChars (cs : List Char) : List Char := cs.map Char.toLower

def startsWithS (s pre : String) : Bool := pre.data.isPrefixOf s.data

/-- `sep in s` (Python substring containment). -/
def containsSub (sep : String) (s : String) : Bool := (splitFirst sep.data s.data).isSome

/-- Python `s.split()`: split on whitespace runs, dropping empty tokens. -/
def pySplit (s : String) : List String :=
  ((s.data.foldr
      (fun c acc =>
        if c.isWhitespace then [] :: acc
        else (c :: acc.headD []) :: acc.tail)
      [[]]).filter (fun w => w ≠ [])).map ofChars

def intercalateS (sep : String) (l : List String) : String :=
  match l with
  | [] => ""
  | x :: xs => xs.foldl (fun acc s => acc ++ sep ++ s) x

/-! ### Exact rationals

Machine floats are modelled as exact rationals. `Mathlib`'s `Rat` arithmetic
is `@[irreducible]`, which blocks kernel evaluation of concrete pipeline
runs, so we use our own always-normalized pair representation: every `Q`
produced by the smart constructors below is in lowest terms with positive
denominator, hence structural (decidable) equality coincides with value
equality. -/

structure Q where
  n : Int
  d : Nat
deriving DecidableEq

/-- Normalize `n / d` (callers never pass `d = 0`; it is mapped to `0`). -/
def Q.norm (n : Int) (d : Nat) : Q :=
  if d = 0 then ⟨0, 1⟩
  else
    let g := Nat.gcd n.natAbs d
    ⟨n / (g : Int), d / g⟩

def qi (n : Int) : Q := ⟨n, 1⟩

instance : OfNat Q k := ⟨qi k⟩

def Q.add (a b : Q) : Q := Q.norm (a.n * b.d + b.n * a.d) (a.d * b.d)

def Q.neg (a : Q) : Q := ⟨-a.n, a.d⟩

def Q.sub (a b : Q) : Q := a.add b.neg

def Q.mul (a b : Q) : Q := Q.norm (a.n * b.n) (a.d * b.d)

/-- `a / b`; division by zero yields `0` (never reached by the embedding). -/
def Q.div (a b : Q) : Q :=
  if b.n = 0 then ⟨0, 1⟩
  else if b.n > 0 then Q.norm (a.n * b.d) (a.d * b.n.natAbs)
  else Q.norm (-(a.n * b.d)) (a.d * b.n.natAbs)

def Q.blt (a b : Q) : Bool := a.n * b.d < b.n * a.d

def Q.ble (a b : Q) : Bool := a.n * b.d ≤ b.n * a.d

/-- Floor of a rational as an integer (denominator is positive). -/
def Q.floor (a : Q) : Int := Int.fdiv a.n a.d

/-- Round to the nearest integer, halves up (model of the nearest-tick
rounding that `pandas`/`datetime` perform when converting fractional
seconds/days; all concrete values in this development are exact). -/
def Q.intRound (a : Q) : Int := (a.add (Q.norm 1 2)).floor

/-- Exact decimal `m * 10 ^ (-e)`. -/
def dec (m : Int) (e : Nat) : Q := Q.norm m (10 ^ e)

/-! ### Numeric string parsing (model of Python `float()` and digit fields) -/

def pow10Q (n : Nat) : Q := ⟨(10 ^ n : Nat), 1⟩

def digitVal (c : Char) : Nat := c.toNat - 48

def digitsVal (cs : List Char) : Nat := cs.foldl (fun a c => a * 10 + digitVal c) 0

def d2 (a b : Char) : Nat := digitVal a * 10 + digitVal b

def d4 (a b c d : Char) : Nat := digitsVal [a, b, c, d]

/-- Unsigned decimal `intpart[.fracpart]` as an exact rational. -/
def parseUnsigned (cs : List Char) : Option Q :=
  match splitOnL ['.'] cs with
  | [ip] =>
      if ip ≠ [] && ip.all Char.isDigit then some (qi (digitsVal ip))
      else none
  | [ip, fp] =>
      if (ip ≠ [] || fp ≠ []) && ip.all Char.isDigit && fp.all Char.isDigit then
        some ((qi (digitsVal ip)).add ((qi (digitsVal fp)).div (pow10Q fp.length)))
      else none
  | _ => none

def parseExp (s : List Char) : Option Int :=
  let core (cs : List Char) (neg : Bool) : Option Int :=
    if cs ≠ [] && cs.all Char.isDigit then
      some (if neg then -(digitsVal cs : Int) else (digitsVal cs : Int))
    else none
  match s with
  | '+' :: cs => core cs false
  | '-' :: cs => core cs true
  | cs => core cs false

/-- Model of Python `float(str)` on finite decimal/exponent literals
(`inf`, `nan` and underscore separators are not modelled; the repository's
data never uses them). Surrounding whitespace is ignored as `float` does. -/
def parseFloat (s0 : String) : Option Q :=
  let s := trimChars s0.data
  let negBody : Bool × List Char :=
    match s with
    | '-' :: rest => (true, rest)
    | '+' :: rest => (false, rest)
    | rest => (false, rest)
  let mantAndExp : Option (List Char × Int) :=
    match splitOnL ['e'] (lowerChars negBody.2) with
    | [m] => some (m, 0)
    | [m, e] => (parseExp e).map (fun k => (m, k))
    | _ => none
  match mantAndExp with
  | none => none
  | some (m, k) =>
      (parseUnsigned m).map (fun q =>
        let mag := if k ≥ 0 then q.mul (pow10Q k.toNat) else q.div (pow10Q (-k).toNat)
        if negBody.1 then mag.neg else mag)

/-- Model of `pd.to_datetime(s, format="%Y-%m-%d %H:%M:%S.%f")` applied to a
23-character slice: the fixed layout `YYYY-MM-DD HH:MM:SS.fff` with range
validation; anything else is a parse failure (`ValueError` / `NaT`). -/
def parseDatetime23 (s : String) : Option Int :=
  match s.data with
  | [y1, y2, y3, y4, '-', mo1, mo2, '-', dd1, dd2, ' ',
     h1, h2, ':', mi1, mi2, ':', s1, s2, '.', f1, f2, f3] =>
      if [y1, y2, y3, y4, mo1, mo2, dd1, dd2, h1, h2, mi1, mi2, s1, s2, f1, f2, f3].all
           Char.isDigit then
        let y := d4 y1 y2 y3 y4
        let mo := d2 mo1 mo2
        let dd := d2 dd1 dd2
        let hh := d2 h1 h2
        let mi := d2 mi1 mi2
        let ss := d2 s1 s2
        if validDate y mo dd && validTime hh mi ss then
          some (mkTs y mo dd hh mi ss (digitsVal [f1, f2, f3] * 1000))
        else none
      else none
  | _ => none

/-- Model of `datetime.strptime(s, "%m/%d/%Y %H:%M:%S.%f")` (`%f` accepts one
to six fraction digits). -/
def parseStartTime (s : String) : Option Int :=
  match s.data with
  | mo1 :: mo2 :: '/' :: dd1 :: dd2 :: '/' :: y1 :: y2 :: y3 :: y4 :: ' ' ::
    h1 :: h2 :: ':' :: mi1 :: mi2 :: ':' :: s1 :: s2 :: '.' :: frac =>
      if ([mo1, mo2, dd1, dd2, y1, y2, y3, y4, h1, h2, mi1, mi2, s1, s2].all Char.isDigit
          && frac ≠ [] && frac.length ≤ 6 && frac.all Char.isDigit) then
        let y := d4 y1 y2 y3 y4
        let mo := d2 mo1 mo2
        let dd := d2 dd1 dd2
        let hh := d2 h1 h2
        let mi := d2 mi1 mi2
        let ss := d2 s1 s2
        if validDate y mo dd && validTime hh mi ss then
          some (mkTs y mo dd hh mi ss (digitsVal frac * 10 ^ (6 - frac.length)))
        else none
      else none
  | _ => none

/-! ### `dewesoft_reader.py` — mechanical-test parser -/

/-- Exceptions escaping `read_data` (non-numeric data values raise
`ValueError`, a `Start time:` line without `": "` raises `IndexError`, an
unparseable start time raises `ValueError` from `strptime`; all of them
abort the parse). -/
inductive ReadErr where
  | malformedRecord
deriving DecidableEq

/-- `"Start time (Corrected, UTC): " + corrected_time.strftime("%m/%d/%Y %H:%M:%S")`. -/
def fmtCorrectedLine (t : Int) : String :=
  let p := usToParts t.toNat
  "Start time (Corrected, UTC): " ++ pad2 p.month ++ "/" ++ pad2 p.day ++ "/" ++
    pad4 p.year ++ " " ++ pad2 p.hour ++ ":" ++ pad2 p.minute ++ ":" ++ pad2 p.second

/-- `correct_start_time` nested in `read_data`: find the first metadata line
starting with `"Start time:"`, parse everything after the first `": "` with
`strptime("%m/%d/%Y %H:%M:%S.%f")`, subtract 1 h 44 min, and rewrite that line
as a corrected one. No matching line ⇒ metadata unchanged, `None` time. -/
def correct_start_time : List String → Except ReadErr (List String × Option Int)
  | [] => .ok ([], none)
  | line :: rest =>
      if startsWithS line "Start time:" then
        match splitOnL [':', ' '] line.data with
        | [_] => .error .malformedRecord
        | _ :: tailParts =>
            let timeStr := intercalateS ": " (tailParts.map ofChars)
            match parseStartTime timeStr with
            | none => .error .malformedRecord
            | some t =>
                let corrected := t - (1 * 3600 + 44 * 60) * 1000000
                .ok (fmtCorrectedLine corrected :: rest, some corrected)
        | [] => .error .malformedRecord
      else
        (correct_start_time rest).map (fun p => (line :: p.1, p.2))

/-- One pass over the stripped lines: metadata before the `Data1` sentinel,
tab-separated `time, force` pairs after it (skipping blank lines and the
`Time...` header). A row without a tab or with a non-numeric field raises. -/
def splitDataSection : Bool → List String → Except ReadErr (List String × List Q × List Q)
  | _, [] => .ok ([], [], [])
  | started, rawLine :: rest =>
      let line := trimS rawLine
      if startsWithS line "Data1" then splitDataSection true rest
      else if !started then
        (splitDataSection started rest).map (fun r => (line :: r.1, r.2.1, r.2.2))
      else if line ≠ "" && !(startsWithS line "Time") then
        match splitOnS "\t" line with
        | p0 :: p1 :: _ =>
            match parseFloat p0, parseFloat p1 with
            | some t, some f =>
                (splitDataSection started rest).map (fun r => (r.1, t :: r.2.1, f :: r.2.2))
            | _, _ => .error .malformedRecord
        | _ => .error .malformedRecord
      else splitDataSection started rest

/-- `read_data(file_path)` on the file's lines: returns
`(metadata, time_vals, force_vals, corrected_start_time)`. -/
def read_data (lines : List String) :
    Except ReadErr (List String × List Q × List Q × Option Int) :=
  match splitDataSection false lines with
  | .error e => .error e
  | .ok (metadata, times, forces) =>
      match correct_start_time metadata with
      | .error e => .error e
      | .ok (metadata2, corrected) => .ok (metadata2, times, forces, corrected)

/-! ### `np.argmin` / `np.argmax` (first occurrence of the extremum) -/

/-- Index of the first occurrence of the minimum (`np.argmin`; `0` on `[]`,
where numpy raises instead — callers guard emptiness). -/
def argminIdx : List Nat → Nat
  | [] => 0
  | x :: xs =>
      if xs = [] then 0
      else if xs.getD (argminIdx xs) 0 < x then argminIdx xs + 1 else 0

/-- Index of the first occurrence of the maximum (`np.argmax`). -/
def argmaxIdx : List Q → Nat
  | [] => 0
  | x :: xs =>
      if xs = [] then 0
      else if Q.blt x (xs.getD (argmaxIdx xs) 0) then argmaxIdx xs + 1 else 0

def firstNoneIdx : List (Option Nat) → Option Nat
  | [] => none
  | none :: _ => some 0
  | some _ :: rest => (firstNoneIdx rest).map (· + 1)

/-- `np.argmin` over a timedelta array that may contain `NaT` (`none`):
`NaT` propagates like `NaN`, so the first `NaT` index wins; otherwise the
first minimum. -/
def argminOptIdx (l : List (Option Nat)) : Nat :=
  match firstNoneIdx l with
  | some i => i
  | none => argminIdx (l.map (fun x => x.getD 0))

/-! ### `sbe_reader.py` — CTD parser and locator -/

structure SbeRow where
  datetime : Int
  T_deg : Q
  Sal : Q
  SV : Q
deriving DecidableEq

instance : Inhabited SbeRow := ⟨⟨0, 0, 0, 0⟩⟩

/-- `is_valid_datetime(line)`: starts with `[` and `line[1:24]` parses with
format `%Y-%m-%d %H:%M:%S.%f`. -/
def is_valid_datetime (line : String) : Bool :=
  startsWithS line "[" && (parseDatetime23 (ofChars ((line.data.drop 1).take 23))).isSome

/-- Body of the per-line loop of `read_sbe_data`: parse the timestamp slice,
then — only if the line contains `#` — split the first `#`-delimited field
list on commas and read fields 0, 2, 3 as floats (temperature, salinity,
sound velocity); any failure skips the line. -/
def parseSbeLine (line : String) : Option SbeRow :=
  match parseDatetime23 (ofChars ((line.data.drop 1).take 23)) with
  | none => none
  | some dt =>
      match splitOnL ['#'] line.data with
      | _ :: dataSeg :: _ =>
          let parts := splitOnL [','] (trimChars dataSeg)
          if parts.length ≥ 5 then
            match parseFloat (ofChars (parts.getD 0 [])),
                parseFloat (ofChars (parts.getD 2 [])),
                parseFloat (ofChars (parts.getD 3 [])) with
            | some tDeg, some sal, some sv => some ⟨dt, tDeg, sal, sv⟩
            | _, _, _ => none
          else none
      | _ => none

/-- `read_sbe_data(file_path_pattern)`: rows accumulated over the matched
files in order, no sorting and no deduplication; `None` when no valid row
was collected. -/
def read_sbe_data (files : List (List String)) : Option (List SbeRow) :=
  let rows :=
    (files.map (fun lines =>
      (lines.filter is_valid_datetime).filterMap parseSbeLine)).flatten
  if rows = [] then none else some rows

/-- Exceptions raised inside the locators and the measurement join:
`emptyTable` models the `ValueError` of `np.argmin` on an empty array,
`natStrftime` the `ValueError` of `pd.Timestamp(NaT).strftime`. -/
inductive MeasError where
  | emptyTable
  | natStrftime
deriving DecidableEq

/-- `find_closest_timestamp(ds_sbe, target)`: `np.argmin` over the absolute
time differences, first occurrence on ties. -/
def find_closest_timestamp (ds : List SbeRow) (target : Int) :
    Except MeasError (Int × Q × Q × Q) :=
  match ds with
  | [] => .error .emptyTable
  | r0 :: rest =>
      let all := r0 :: rest
      let diffs := all.map (fun r => (r.datetime - target).natAbs)
      let i := argminIdx diffs
      let row := all.getD i r0
      .ok (row.datetime, row.T_deg, row.Sal, row.SV)

/-! ### `sbe_w_density_reader.py` — density parser and locator -/

/-- Exceptions escaping `process_sbe37cnv_data`: `fileNotFound` is the
`FileNotFoundError` on an empty glob, `endMarkerMissing` the `ValueError`
when a file has no `*END*` line, `emptyData` the `IndexError` of
`ds['datetime'].values[-1]` when no valid data row was collected. -/
inductive DensityError where
  | fileNotFound
  | endMarkerMissing
  | emptyData
deriving DecidableEq

structure DensityRow where
  salinity : Q
  temperature : Q
  elapsedTime : Q
  julianTime : Q
  soundVelocity : Q
  densityV : Q
  flag : Q
deriving DecidableEq

/-- A density dataset row after the Julian-time conversion. -/
structure DensityOut where
  datetime : Int
  row : DensityRow
deriving DecidableEq

instance : Inhabited DensityOut := ⟨⟨0, ⟨0, 0, 0, 0, 0, 0, 0⟩⟩⟩

/-- Model of `pd.to_datetime` applied to the header time string, used only
for its `.year`: ISO `YYYY-MM-DD`, optionally followed by
`" HH:MM:SS[.fff...]"`. Other spellings accepted by `pandas` are not used by
the repository's data and are treated as unparseable. -/
def parseFlexYear (s : String) : Option Nat :=
  let timeOk : List Char → Bool := fun rest =>
    match rest with
    | [] => true
    | ' ' :: h1 :: h2 :: ':' :: mi1 :: mi2 :: ':' :: s1 :: s2 :: tl =>
        ([h1, h2, mi1, mi2, s1, s2].all Char.isDigit
          && validTime (d2 h1 h2) (d2 mi1 mi2) (d2 s1 s2))
        && (match tl with
            | [] => true
            | '.' :: fr => fr ≠ [] && fr.all Char.isDigit
            | _ => false)
    | _ => false
  match s.data with
  | y1 :: y2 :: y3 :: y4 :: '-' :: mo1 :: mo2 :: '-' :: dd1 :: dd2 :: rest =>
      if [y1, y2, y3, y4, mo1, mo2, dd1, dd2].all Char.isDigit
          && validDate (d4 y1 y2 y3 y4) (d2 mo1 mo2) (d2 dd1 dd2)
          && timeOk rest then
        some (d4 y1 y2 y3 y4)
      else none
  | _ => none

/-- Year extraction from the `# start_time = ...` header line:
`line.split('=')[1].strip().split(' [')[0]` fed to `pd.to_datetime`; any
failure falls back to the fixed reference year 2025. -/
def headerYear (line : String) : Nat :=
  let seg := (splitOnL ['='] line.data).getD 1 []
  let timeStr := (splitOnL [' ', '['] (trimChars seg)).getD 0 []
  match parseFlexYear (ofChars timeStr) with
  | some y => y
  | none => 2025

/-- Data-row parse: whitespace split, at least 7 fields, the first 7 all
floats (salinity, temperature, elapsed time, Julian time, sound velocity,
density, flag); otherwise the row is skipped. -/
def parseDensityLine (line : String) : Option DensityRow :=
  let parts := pySplit line
  if parts.length ≥ 7 then
    match parseFloat (parts.getD 0 ""), parseFloat (parts.getD 1 ""),
        parseFloat (parts.getD 2 ""), parseFloat (parts.getD 3 ""),
        parseFloat (parts.getD 4 ""), parseFloat (parts.getD 5 ""),
        parseFloat (parts.getD 6 "") with
    | some sal, some t, some et, some jt, some sv, some rho, some fl =>
        some ⟨sal, t, et, jt, sv, rho, fl⟩
    | _, _, _, _, _, _, _ => none
  else none

/-- Per-file step of `process_sbe37cnv_data`: locate `*END*`, collect the
rows after it, and extract the header year (the Python loop overwrites
`year` on every file, so the year of the *last* file is the one used for
the whole conversion). -/
def densityFileStep (lines : List String) (acc : List DensityRow × Nat) :
    Except DensityError (List DensityRow × Nat) :=
  match lines.findIdx? (fun l => containsSub "*END*" l) with
  | none => .error .endMarkerMissing
  | some endIdx =>
      let dataLines := lines.drop (endIdx + 1)
      let year :=
        match lines.find? (fun l => startsWithS (ofChars (lowerChars l.data)) "# start_time") with
        | none => 2025
        | some l => headerYear l
      .ok (acc.1 ++ dataLines.filterMap parseDensityLine, year)

def densityFilesGo : List (List String) → (List DensityRow × Nat) →
    Except DensityError (List DensityRow × Nat)
  | [], acc => .ok acc
  | f :: fs, acc =>
      match densityFileStep f acc with
      | .error e => .error e
      | .ok acc2 => densityFilesGo fs acc2

/-- `julian_base_time + pd.to_timedelta(julian - 1, unit='D')` in
microseconds (sub-microsecond fractions round to the nearest tick). -/
def julianToTs (year : Nat) (julian : Q) : Int :=
  mkTs year 1 1 0 0 0 0 + ((julian.sub (qi 1)).mul (qi 86400000000)).intRound

/-- `process_sbe37cnv_data(file_path_pattern)`. -/
def process_sbe37cnv_data (files : List (List String)) :
    Except DensityError (List DensityOut) :=
  if files = [] then .error .fileNotFound
  else
    match densityFilesGo files ([], 2025) with
    | .error e => .error e
    | .ok (rows, year) =>
        if rows = [] then .error .emptyData
        else .ok (rows.map (fun r => ⟨julianToTs year r.julianTime, r⟩))

/-- `find_closest_density(ds_sbe, target)`. -/
def find_closest_density (ds : List DensityOut) (target : Int) :
    Except MeasError (Int × Q × Q × Q × Q) :=
  match ds with
  | [] => .error .emptyTable
  | r0 :: rest =>
      let all := r0 :: rest
      let diffs := all.map (fun r => (r.datetime - target).natAbs)
      let i := argminIdx diffs
      let row := all.getD i r0
      .ok (row.datetime, row.row.temperature, row.row.salinity,
           row.row.soundVelocity, row.row.densityV)

/-! ### `tstick_reader.py` — temperature-stick parser and locator -/

/-- Exceptions escaping `read_tstick_data` (both are `ValueError`s):
`noValidData` from the explicit `raise`, `dimMismatch` from the `xarray`
Dataset construction when a row has more than 16 value columns. -/
inductive TstickError where
  | noValidData
  | dimMismatch
deriving DecidableEq

/-- A parsed T-stick row: the bracket timestamp (`none` models `NaT` from
`pd.to_datetime(..., errors='coerce')`) and the value columns (`none`
models `NaN` from `pd.to_numeric(..., errors='coerce')`). -/
structure TstickRow where
  datetime : Option Int
  temps : List (Option Q)
deriving DecidableEq

instance : Inhabited TstickRow := ⟨⟨none, []⟩⟩

structure TstickDS where
  rows : List TstickRow
  z : List Q
deriving DecidableEq

def chompCh (c : Char) : List Char → Option (List Char)
  | x :: rest => if x = c then some rest else none
  | [] => none

def chompDigitsN : Nat → List Char → Option (List Char)
  | 0, cs => some cs
  | n + 1, c :: cs => if c.isDigit then chompDigitsN n cs else none
  | _ + 1, [] => none

/-- `\d+` (maximal munch). -/
def chompDigits1 : List Char → Option (List Char)
  | c :: cs => if c.isDigit then some (cs.dropWhile Char.isDigit) else none
  | [] => none

def chompWs : List Char → Option (List Char)
  | c :: cs => if c.isWhitespace then some cs else none
  | [] => none

/-- `-?\d+\.\d+\s`. -/
def chompFloatWs (cs : List Char) : Option (List Char) :=
  let cs1 := match cs with
    | '-' :: rest => rest
    | rest => rest
  ((chompDigits1 cs1).bind (chompCh '.')).bind (fun c2 => (chompDigits1 c2).bind chompWs)

def chompFloats : Nat → List Char → Option (List Char)
  | 0, cs => some cs
  | n + 1, cs => (chompFloatWs cs).bind (chompFloats n)

/-- The validation regex of `read_tstick_data` (a prefix match, exactly as
`pattern.match`):
`\[\d{4}-\d{2}-\d{2} \d{2}:\d{2}:\d{2}\.\d{3}\]\s`
`\d{4}-\d{2}-\d{2}T\d{2}:\d{2}:\d{2}\s(-?\d+\.\d+\s){16}`.
File lines end in a newline, which supplies the trailing `\s` of the last
float group. -/
def tstickLineValid (line : String) : Bool :=
  (((((((((((((((((((some line.data).bind (chompCh '[')).bind
    (chompDigitsN 4)).bind (chompCh '-')).bind (chompDigitsN 2)).bind
    (chompCh '-')).bind (chompDigitsN 2)).bind (chompCh ' ')).bind
    (chompDigitsN 2)).bind (chompCh ':')).bind (chompDigitsN 2)).bind
    (chompCh ':')).bind (chompDigitsN 2)).bind (chompCh '.')).bind
    (chompDigitsN 3)).bind (chompCh ']')).bind chompWs).bind
    (fun cs => (((((((chompDigitsN 4 cs).bind (chompCh '-')).bind
      (chompDigitsN 2)).bind (chompCh '-')).bind (chompDigitsN 2)).bind
      (chompCh 'T')).bind (chompDigitsN 2)).bind (chompCh ':'))).bind
    (fun cs => (((chompDigitsN 2 cs).bind (chompCh ':')).bind
      (chompDigitsN 2)).bind chompWs)).bind (chompFloats 16) |>.isSome

/-- Row assembly of `read_tstick_data`: whitespace split, strip `[` / `]`
from the first two tokens, recombine them into the datetime (parsed with
`errors='coerce'`), drop the first three columns, read the rest with
`pd.to_numeric(errors='coerce')`. -/
def parseTstickRow (line : String) : TstickRow :=
  let toks := pySplit line
  let c0 := stripCharBoth '[' (toks.getD 0 "")
  let c1 := stripCharBoth ']' (toks.getD 1 "")
  ⟨parseDatetime23 (c0 ++ " " ++ c1), (toks.drop 3).map parseFloat⟩

/-- `data[~data['datetime'].duplicated(keep=False)]`: keep exactly the rows
whose datetime occurs once (`NaT` compares equal to `NaT`, as in `pandas`). -/
def dedupUnique (rows : List TstickRow) : List TstickRow :=
  rows.filter (fun r => rows.countP (fun r2 => r2.datetime == r.datetime) == 1)

/-- `sort_values(by='datetime', ascending=True)` key order: `NaT` sorts
last (`na_position='last'`). -/
def tsLe : Option Int → Option Int → Bool
  | some a, some b => a ≤ b
  | some _, none => true
  | none, none => true
  | none, some _ => false

def tsLt : Option Int → Option Int → Bool
  | some a, some b => a < b
  | some _, none => true
  | none, _ => false

def rowLe (a b : TstickRow) : Prop := tsLe a.datetime b.datetime = true

instance : DecidableRel rowLe := fun a b => instDecidableEqBool (tsLe a.datetime b.datetime) true

instance : IsTotal TstickRow rowLe where
  total a b := by
    unfold rowLe
    cases a.datetime <;> cases b.datetime
    all_goals simp [tsLe]
    all_goals omega

instance : IsTrans TstickRow rowLe where
  trans a b c hab hbc := by
    unfold rowLe at hab hbc ⊢
    revert hab hbc
    cases a.datetime <;> cases b.datetime <;> cases c.datetime
    all_goals simp [tsLe]
    all_goals omega

/-- `ds.drop_duplicates(dim='datetime', keep='first')`. -/
def dropDupFirstGo (seen : List (Option Int)) : List TstickRow → List TstickRow
  | [] => []
  | r :: rest =>
      if seen.contains r.datetime then dropDupFirstGo seen rest
      else r :: dropDupFirstGo (r.datetime :: seen) rest

/-- `z = np.arange(16) * 0.02 - 0.07` as exact rationals. -/
def zCoords : List Q := (List.range 16).map (fun i => ((qi i).mul (dec 2 2)).sub (dec 7 2))

/-- `read_tstick_data(file_path_pattern, downsample_rate=10)`. The
`downsample_rate` parameter is accepted and never used, as in the source.
The `DataFrame`-to-`Dataset` step fails with a dimension mismatch unless
every valid row has exactly 16 value columns (the regex guarantees at
least 16). -/
def read_tstick_data (files : List (List String)) (_downsampleRate : Nat) :
    Except TstickError TstickDS :=
  let validLines := (files.map (fun lines => lines.filter tstickLineValid)).flatten
  if validLines = [] then .error .noValidData
  else
    let rows0 := (validLines.map trimS).map parseTstickRow
    if rows0.all (fun r => r.temps.length = 16) then
      .ok ⟨dropDupFirstGo [] (List.insertionSort rowLe (dedupUnique rows0)), zCoords⟩
    else .error .dimMismatch

/-- `find_closest_tstick(ds_tsticks, target)`: `(None, None)` when the
dataset is `None`; otherwise `np.argmin` over the time differences and the
profile over `z` at that index. -/
def find_closest_tstick (ds? : Option TstickDS) (target : Int) :
    Except MeasError (Option (Option Int) × Option (List (Option Q))) :=
  match ds? with
  | none => .ok (none, none)
  | some ds =>
      match ds.rows with
      | [] => .error .emptyTable
      | r0 :: rest =>
          let all := r0 :: rest
          let diffs := all.map (fun r => r.datetime.map (fun t => (t - target).natAbs))
          let i := argminOptIdx diffs
          let row := all.getD i r0
          .ok (some row.datetime, some row.temps)

/-! ### `main.py` — orchestrator join logic (`IceExperimentAnalyzer`)

`main.py:198` reads `meta, time_data, force_data, corrected time = ...`,
a typo for `corrected_time`; the embedding models the evident intended
binding. -/

/-- `pd.Timestamp(ts).strftime("%Y-%m-%d %H:%M:%S.%f")[:-6]`: the slice
removes the six microsecond digits but keeps the trailing dot. -/
def fmtRowTs (t : Int) : String :=
  let p := usToParts t.toNat
  pad4 p.year ++ "-" ++ pad2 p.month ++ "-" ++ pad2 p.day ++ " " ++
    pad2 p.hour ++ ":" ++ pad2 p.minute ++ ":" ++ pad2 p.second ++ "."

/-- Python `format(q, '.<prec>f')` on an exact rational: fixed-point with
banker's rounding (ties to even), sign preserved. -/
def fmtFixed (q : Q) (prec : Nat) : String :=
  let neg := q.n < 0
  let scaledNum := q.n.natAbs * 10 ^ prec
  let ip := scaledNum / q.d
  let rem2 := 2 * (scaledNum % q.d)
  let rounded :=
    if rem2 > q.d then ip + 1
    else if rem2 < q.d then ip
    else if ip % 2 = 0 then ip else ip + 1
  let whole := rounded / 10 ^ prec
  let frac := rounded % 10 ^ prec
  let fracStr := (toString (10 ^ prec + frac)).drop 1
  (if neg then "-" else "") ++ toString whole ++
    (if prec = 0 then "" else "." ++ fracStr)

/-- `';'.join([f"{temp:.3f}" for temp in tstick_temps])`; `NaN` prints as
`nan`. -/
def joinProfile (temps : List (Option Q)) : String :=
  intercalateS ";" (temps.map (fun t =>
    match t with
    | some q => fmtFixed q 3
    | none => "nan"))

/-- The `closest_data` dict of `_find_closest_measurements`: every key that
any branch may set, absent keys as `none`. Note that the CTD branch stores
under `sbe_*` keys while the result row and the info file read `ctd_*`
keys, which only the density branch sets. -/
structure ClosestData where
  sbe_time : Option String := none
  sbe_T : Option Q := none
  sbe_S : Option Q := none
  sbe_SV : Option Q := none
  ctd_time : Option String := none
  ctd_T : Option Q := none
  ctd_S : Option Q := none
  ctd_SV : Option Q := none
  ctd_rho : Option Q := none
  tstick_time : Option String := none
  tstick_profile : Option String := none
deriving DecidableEq

def emptyClosest : ClosestData := {}

/-- The three per-folder environmental tables held in `env_data`
(`None` = absent stream). -/
structure EnvData where
  ds_sbe : Option (List SbeRow)
  ds_tsticks : Option TstickDS
  ds_density : Option (List DensityOut)
deriving DecidableEq

def stepSbe (ds? : Option (List SbeRow)) (ts : Int) (c : ClosestData) :
    Except MeasError ClosestData :=
  match ds? with
  | none => .ok c
  | some ds =>
      match find_closest_timestamp ds ts with
      | .error e => .error e
      | .ok (t, tDeg, sal, sv) =>
          .ok { c with sbe_time := some (fmtRowTs t), sbe_T := some tDeg,
                       sbe_S := some sal, sbe_SV := some sv }

def stepDensity (ds? : Option (List DensityOut)) (ts : Int) (c : ClosestData) :
    Except MeasError ClosestData :=
  match ds? with
  | none => .ok c
  | some ds =>
      match find_closest_density ds ts with
      | .error e => .error e
      | .ok (t, tDeg, sal, sv, rho) =>
          .ok { c with ctd_time := some (fmtRowTs t), ctd_T := some tDeg,
                       ctd_S := some sal, ctd_SV := some sv, ctd_rho := some rho }

def stepTstick (ds? : Option TstickDS) (ts : Int) (c : ClosestData) :
    Except MeasError ClosestData :=
  match ds? with
  | none => .ok c
  | some ds =>
      match find_closest_tstick (some ds) ts with
      | .error e => .error e
      | .ok (t?, temps?) =>
          match temps? with
          | none => .ok c
          | some temps =>
              match t? with
              | some (some t) =>
                  .ok { c with tstick_time := some (fmtRowTs t),
                               tstick_profile := some (joinProfile temps) }
              | some none => .error .natStrftime
              | none => .ok c

/-- `_find_closest_measurements(timestamp, env_data)`. -/
def findClosestMeasurements (ts : Int) (env : EnvData) : Except MeasError ClosestData :=
  match stepSbe env.ds_sbe ts emptyClosest with
  | .error e => .error e
  | .ok c1 =>
      match stepDensity env.ds_density ts c1 with
      | .error e => .error e
      | .ok c2 => stepTstick env.ds_tsticks ts c2

inductive FmtError where
  | strFormatCode
deriving DecidableEq

/-- `_create_info_file`: the info text interpolates
`closest_data.get('ctd_T', 'N/A'):.4f` (and `ctd_S`, `ctd_SV`, `ctd_rho`);
when the key is absent the `'N/A'` default string meets the float format
code and `ValueError: Unknown format code 'f'` is raised. Only the
success/failure behaviour and the interpolated fields are modelled; the
surrounding template text is abbreviated. -/
def createInfoFile (c : ClosestData) : Except FmtError String :=
  match c.ctd_T, c.ctd_S, c.ctd_SV, c.ctd_rho with
  | some tT, some tS, some tSV, some tRho =>
      .ok ((c.ctd_time.getD "N/A") ++ " " ++ fmtFixed tT 4 ++ " " ++ fmtFixed tS 4 ++
           " " ++ fmtFixed tSV 3 ++ " " ++ fmtFixed tRho 3 ++ " " ++
           (c.tstick_time.getD "N/A") ++ " " ++ (c.tstick_profile.getD "N/A"))
  | _, _, _, _ => .error .strFormatCode

/-- The result-row dict assembled by `_process_test_file` (the
`experiment_folder` column is added by the caller). `none` in the numeric
fields models the `np.nan` defaults. -/
structure RowData where
  measurementFile : String
  experimentPeakTime : String
  ctd_time : String
  ctd_T : Option Q
  ctd_S : Option Q
  ctd_SV : Option Q
  ctd_rho : Option Q
  tstick_time : String
  tstick_profile : String
  caution : String
deriving DecidableEq

/-- `max_timestamp = time_data_dt[np.argmax(force_data)]` (lines 202-208):
corrected start plus the argmax row's time offset in seconds. -/
def peakTimestamp (c0 : Int) (times forces : List Q) : Int :=
  c0 + ((times.getD (argmaxIdx forces) 0).mul (qi 1000000)).intRound

/-- `_process_test_file(test_file, env_data)`: `None` models every caught
exception (malformed data, missing start time making the datetime
conversion raise `TypeError`, `np.argmax` on an empty array, locator
errors, and the info-file format crash). -/
def processTestFile (fileName : String) (lines : List String) (env : EnvData) :
    Option RowData :=
  match read_data lines with
  | .error _ => none
  | .ok (_, times, forces, ct?) =>
      match ct? with
      | none => none
      | some c0 =>
          if forces = [] then none
          else if argmaxIdx forces < times.length then
            let maxTs := peakTimestamp c0 times forces
            match findClosestMeasurements maxTs env with
            | .error _ => none
            | .ok closest =>
                match createInfoFile closest with
                | .error _ => none
                | .ok _ =>
                    some { measurementFile := fileName
                         , experimentPeakTime := fmtRowTs maxTs
                         , ctd_time := closest.ctd_time.getD "N/A"
                         , ctd_T := closest.ctd_T
                         , ctd_S := closest.ctd_S
                         , ctd_SV := closest.ctd_SV
                         , ctd_rho := closest.ctd_rho
                         , tstick_time := closest.tstick_time.getD "N/A"
                         , tstick_profile := closest.tstick_profile.getD "N/A"
                         , caution := "" }
          else none

/-- The T-stick branch of `_load_environmental_data`: the inner
`except ValueError` catches both `TstickError`s (they are `ValueError`s). -/
def tstickLoad (files : List (List String)) : Option TstickDS :=
  match read_tstick_data files 10 with
  | .ok ds => some ds
  | .error _ => none

/-- `_load_environmental_data(folder_path)`: the CTD load is bare, the
T-stick load catches `ValueError`, the density load catches
`FileNotFoundError` and `ValueError` — but the density `IndexError`
(`emptyData`) reaches the outer handler, which returns the empty dict
(modelled as `none`), discarding the already-loaded streams. -/
def loadEnvironmentalData (sbeFiles tstickFiles densityFiles : List (List String)) :
    Option EnvData :=
  let sbe := read_sbe_data sbeFiles
  let tst := tstickLoad tstickFiles
  match process_sbe37cnv_data densityFiles with
  | .ok ds => some ⟨sbe, tst, some ds⟩
  | .error .fileNotFound => some ⟨sbe, tst, none⟩
  | .error .endMarkerMissing => some ⟨sbe, tst, none⟩
  | .error .emptyData => none

/-- `process_single_experiment(folder_path)` for one folder, with the
folder's test files given as `(name, lines)` pairs: `None` when the
environment dict is empty, no test files exist, or no row survives. -/
def processSingleExperiment (sbeFiles tstickFiles densityFiles : List (List String))
    (testFiles : List (String × List String)) : Option (List RowData) :=
  match loadEnvironmentalData sbeFiles tstickFiles densityFiles with
  | none => none
  | some env =>
      if testFiles = [] then none
      else
        let rows := testFiles.filterMap (fun tf => processTestFile tf.1 tf.2 env)
        if rows = [] then none else some rows

/-! ### Specification of the nearest-timestamp locator -/

/-- `|t - target|` as a natural number of microseconds. -/
def absDiff (t target : Int) : Nat := (t - target).natAbs

/-- `i` is the index of the row whose timestamp minimizes the absolute
difference to `target`, with ties broken towards the earliest index: every
index attains an equal-or-larger difference, and every *earlier* index a
strictly larger one. -/
def isClosestFirst (times : List Int) (target : Int) (i : Nat) : Prop :=
  i < times.length ∧
  (∀ j, j < times.length → absDiff (times.getD i 0) target ≤ absDiff (times.getD j 0) target) ∧
  (∀ j, j < i → absDiff (times.getD i 0) target < absDiff (times.getD j 0) target)

/-! ### Lemmas about `argminIdx` -/

theorem getD_default_eq {α : Type} (l : List α) :
    ∀ (i : Nat) (d1 d2 : α), i < l.length → l.getD i d1 = l.getD i d2 := by
  induction l with
  | nil => intro i d1 d2 h; simp at h
  | cons x xs ih =>
      intro i d1 d2 h
      cases i with
      | zero => simp
      | succ i2 => simpa using ih i2 d1 d2 (by simpa using h)

theorem getD_map_lt {α β : Type} (f : α → β) (l : List α) :
    ∀ (i : Nat) (d1 : β) (d2 : α), i < l.length → (l.map f).getD i d1 = f (l.getD i d2) := by
  induction l with
  | nil => intro i d1 d2 h; simp at h
  | cons x xs ih =>
      intro i d1 d2 h
      cases i with
      | zero => simp
      | succ i2 => simpa using ih i2 d1 d2 (by simpa using h)

theorem argminIdx_lt (l : List Nat) (h : l ≠ []) : argminIdx l < l.length := by
  induction l with
  | nil => exact absurd rfl h
  | cons x xs ih =>
      by_cases hxs : xs = []
      · subst hxs; simp [argminIdx]
      · simp only [argminIdx, if_neg hxs, List.length_cons]
        by_cases hlt : xs.getD (argminIdx xs) 0 < x
        · rw [if_pos hlt]; exact Nat.succ_lt_succ (ih hxs)
        · rw [if_neg hlt]; exact Nat.succ_pos _

theorem argminIdx_min (l : List Nat) :
    ∀ j, j < l.length → l.getD (argminIdx l) 0 ≤ l.getD j 0 := by
  induction l with
  | nil => intro j hj; simp at hj
  | cons x xs ih =>
      intro j hj
      by_cases hxs : xs = []
      · subst hxs
        have hj0 : j = 0 := by simpa using Nat.lt_one_iff.mp (by simpa using hj)
        subst hj0; simp [argminIdx]
      · simp only [argminIdx, if_neg hxs]
        by_cases hlt : xs.getD (argminIdx xs) 0 < x
        · rw [if_pos hlt]
          cases j with
          | zero => simpa using Nat.le_of_lt hlt
          | succ j2 => simpa using ih j2 (by simpa using hj)
        · rw [if_neg hlt]
          cases j with
          | zero => simp
          | succ j2 =>
              have h1 : xs.getD (argminIdx xs) 0 ≤ xs.getD j2 0 :=
                ih j2 (by simpa using hj)
              have h2 : x ≤ xs.getD (argminIdx xs) 0 := Nat.not_lt.mp hlt
              simpa using Nat.le_trans h2 h1

theorem argminIdx_first (l : List Nat) :
    ∀ j, j < argminIdx l → l.getD (argminIdx l) 0 < l.getD j 0 := by
  induction l with
  | nil => intro j hj; simp [argminIdx] at hj
  | cons x xs ih =>
      intro j hj
      by_cases hxs : xs = []
      · subst hxs; simp [argminIdx] at hj
      · simp only [argminIdx, if_neg hxs] at hj ⊢
        by_cases hlt : xs.getD (argminIdx xs) 0 < x
        · rw [if_pos hlt] at hj ⊢
          cases j with
          | zero => simpa using hlt
          | succ j2 => simpa using ih j2 (Nat.lt_of_succ_lt_succ hj)
        · rw [if_neg hlt] at hj
          exact absurd hj (Nat.not_lt_zero j)

/-- The argmin of the per-row absolute differences is the first-closest
index in the sense of `isClosestFirst`, for any row type with a timestamp
projection `key`. -/
theorem argmin_key_spec {α : Type} (d : α) (key : α → Int) (target : Int)
    (all : List α) (hne : all ≠ []) :
    isClosestFirst (all.map key) target
      (argminIdx (all.map (fun r => (key r - target).natAbs))) := by
  set diffs := all.map (fun r => (key r - target).natAbs) with hdiffs
  have hdlen : diffs.length = all.length := by simp [hdiffs]
  have hklen : (all.map key).length = all.length := by simp
  have hdne : diffs ≠ [] := by
    simpa [hdiffs] using hne
  have hi : argminIdx diffs < all.length := by
    have := argminIdx_lt diffs hdne
    omega
  have hbridge : ∀ j, j < all.length →
      absDiff ((all.map key).getD j 0) target = diffs.getD j 0 := by
    intro j hj
    rw [getD_map_lt key all j 0 d hj, hdiffs,
      getD_map_lt (fun r => (key r - target).natAbs) all j 0 d hj]
    rfl
  refine ⟨by omega, ?_, ?_⟩
  · intro j hjlen
    have hjlen2 : j < all.length := by omega
    rw [hbridge _ hi, hbridge _ hjlen2]
    exact argminIdx_min diffs j (by omega)
  · intro j hjlt
    have hjlen2 : j < all.length := by omega
    rw [hbridge _ hi, hbridge _ hjlen2]
    exact argminIdx_first diffs j hjlt

/-! ### Locator correctness lemmas -/

theorem find_closest_timestamp_spec (ds : List SbeRow) (target : Int) (hne : ds ≠ []) :
    ∃ i, isClosestFirst (ds.map (fun r => r.datetime)) target i ∧
      find_closest_timestamp ds target =
        .ok ((ds.getD i default).datetime, (ds.getD i default).T_deg,
             (ds.getD i default).Sal, (ds.getD i default).SV) := by
  match ds with
  | [] => exact absurd rfl hne
  | r0 :: rest =>
      refine ⟨argminIdx ((r0 :: rest).map (fun r => (r.datetime - target).natAbs)), ?_, ?_⟩
      · exact argmin_key_spec default (fun r => r.datetime) target (r0 :: rest) (by simp)
      · have hlt : argminIdx ((r0 :: rest).map (fun r => (r.datetime - target).natAbs)) <
            (r0 :: rest).length := by
          have := argminIdx_lt ((r0 :: rest).map (fun r => (r.datetime - target).natAbs))
            (by simp)
          simpa using this
        simp only [find_closest_timestamp]
        rw [getD_default_eq (r0 :: rest) _ r0 default hlt]

theorem find_closest_density_spec (ds : List DensityOut) (target : Int) (hne : ds ≠ []) :
    ∃ i, isClosestFirst (ds.map (fun r => r.datetime)) target i ∧
      find_closest_density ds target =
        .ok ((ds.getD i default).datetime, (ds.getD i default).row.temperature,
             (ds.getD i default).row.salinity, (ds.getD i default).row.soundVelocity,
             (ds.getD i default).row.densityV) := by
  match ds with
  | [] => exact absurd rfl hne
  | r0 :: rest =>
      refine ⟨argminIdx ((r0 :: rest).map (fun r => (r.datetime - target).natAbs)), ?_, ?_⟩
      · exact argmin_key_spec default (fun r => r.datetime) target (r0 :: rest) (by simp)
      · have hlt : argminIdx ((r0 :: rest).map (fun r => (r.datetime - target).natAbs)) <
            (r0 :: rest).length := by
          have := argminIdx_lt ((r0 :: rest).map (fun r => (r.datetime - target).natAbs))
            (by simp)
          simpa using this
        simp only [find_closest_density]
        rw [getD_default_eq (r0 :: rest) _ r0 default hlt]

theorem firstNoneIdx_all_some {g : Int → Nat} (rows : List TstickRow)
    (h : ∀ r ∈ rows, r.datetime.isSome = true) :
    firstNoneIdx (rows.map (fun r => r.datetime.map g)) = none := by
  induction rows with
  | nil => rfl
  | cons r rest ih =>
      have hr : r.datetime.isSome = true := h r (List.mem_cons_self r rest)
      match hx : r.datetime with
      | none => rw [hx] at hr; simp at hr
      | some v =>
          simp only [List.map_cons, hx, Option.map_some, firstNoneIdx]
          rw [ih (fun r2 hr2 => h r2 (List.mem_cons_of_mem r hr2))]
          rfl

theorem mapGetD_all_some {g : Int → Nat} (rows : List TstickRow)
    (h : ∀ r ∈ rows, r.datetime.isSome = true) :
    (rows.map (fun r => r.datetime.map g)).map (fun x => x.getD 0) =
      rows.map (fun r => g (r.datetime.getD 0)) := by
  induction rows with
  | nil => rfl
  | cons r rest ih =>
      have hr : r.datetime.isSome = true := h r (List.mem_cons_self r rest)
      match hx : r.datetime with
      | none => rw [hx] at hr; simp at hr
      | some v =>
          simp only [List.map_cons, hx, Option.map_some, Option.getD_some]
          rw [ih (fun r2 hr2 => h r2 (List.mem_cons_of_mem r hr2))]
          rfl

theorem find_closest_tstick_spec (ds : TstickDS) (target : Int) (hne : ds.rows ≠ [])
    (hsome : ∀ r ∈ ds.rows, r.datetime.isSome = true) :
    ∃ i, isClosestFirst (ds.rows.map (fun r => r.datetime.getD 0)) target i ∧
      find_closest_tstick (some ds) target =
        .ok (some (ds.rows.getD i default).datetime,
             some (ds.rows.getD i default).temps) := by
  match hrows : ds.rows with
  | [] => exact absurd hrows hne
  | r0 :: rest =>
      rw [hrows] at hsome
      have hidx : argminOptIdx ((r0 :: rest).map
          (fun r => r.datetime.map (fun t => (t - target).natAbs))) =
          argminIdx ((r0 :: rest).map
            (fun r => ((r.datetime.getD 0) - target).natAbs)) := by
        unfold argminOptIdx
        rw [firstNoneIdx_all_some (r0 :: rest) hsome,
          mapGetD_all_some (r0 :: rest) hsome]
      refine ⟨argminIdx ((r0 :: rest).map
        (fun r => ((r.datetime.getD 0) - target).natAbs)), ?_, ?_⟩
      · exact argmin_key_spec default (fun r => r.datetime.getD 0) target (r0 :: rest) (by simp)
      · have hlt : argminIdx ((r0 :: rest).map
            (fun r => ((r.datetime.getD 0) - target).natAbs)) < (r0 :: rest).length := by
          have := argminIdx_lt ((r0 :: rest).map
            (fun r => ((r.datetime.getD 0) - target).natAbs)) (by simp)
          simpa using this
        simp only [find_closest_tstick, hrows]
        rw [hidx, getD_default_eq (r0 :: rest) _ r0 default hlt]

/-! ### Strict monotonicity of the T-stick pipeline output -/

/-- Any two rows surviving the `keep=False` dedup have distinct timestamps:
a surviving row's timestamp occurs exactly once in the original list, while
two equal-timestamp survivors would witness at least two occurrences. -/
theorem dedupUnique_pairwise_ne (rows : List TstickRow) :
    List.Pairwise (fun a b : TstickRow => a.datetime ≠ b.datetime) (dedupUnique rows) := by
  rw [List.pairwise_iff_forall_sublist]
  intro a b hsub
  intro hEq
  have hmemA : a ∈ dedupUnique rows := hsub.subset (List.mem_cons_self a [b])
  have hcountA : rows.countP (fun r2 => r2.datetime == a.datetime) = 1 := by
    have := (List.mem_filter.mp hmemA).2
    exact beq_iff_eq.mp this
  have hsubRows : List.Sublist [a, b] rows := hsub.trans (List.filter_sublist rows)
  have hpair : List.countP (fun r2 => r2.datetime == a.datetime) [a, b] = 2 := by
    have ha : (a.datetime == a.datetime) = true := beq_iff_eq.mpr rfl
    have hb : (b.datetime == a.datetime) = true := beq_iff_eq.mpr hEq.symm
    simp [List.countP_cons, ha, hb]
  have hle : List.countP (fun r2 => r2.datetime == a.datetime) [a, b] ≤
      rows.countP (fun r2 => r2.datetime == a.datetime) :=
    hsubRows.countP_le _
  omega

theorem dropDupFirstGo_sublist (l : List TstickRow) :
    ∀ seen, List.Sublist (dropDupFirstGo seen l) l := by
  induction l with
  | nil => intro seen; simp [dropDupFirstGo]
  | cons r rest ih =>
      intro seen
      unfold dropDupFirstGo
      by_cases hs : seen.contains r.datetime
      · rw [if_pos hs]; exact (ih seen).cons r
      · rw [if_neg hs]; exact (ih (r.datetime :: seen)).cons₂ r

theorem tsLe_and_ne_lt (a b : Option Int) (hle : tsLe a b = true) (hne : a ≠ b) :
    tsLt a b = true := by
  match a, b with
  | some x, some y =>
      simp only [tsLe, decide_eq_true_eq] at hle
      simp only [tsLt, decide_eq_true_eq]
      have : x ≠ y := fun h => hne (by rw [h])
      omega
  | some _, none => rfl
  | none, none => exact absurd rfl hne
  | none, some _ => simp [tsLe] at hle

/-- The datetimes coming out of the dedup-sort-dropdup chain of
`read_tstick_data` are strictly increasing in the `NaT`-last order. -/
theorem tstick_pipeline_pairwise (rows0 : List TstickRow) :
    List.Pairwise (fun a b : TstickRow => tsLt a.datetime b.datetime = true)
      (dropDupFirstGo [] (List.insertionSort rowLe (dedupUnique rows0))) := by
  have hperm : List.Perm (List.insertionSort rowLe (dedupUnique rows0)) (dedupUnique rows0) :=
    List.perm_insertionSort rowLe (dedupUnique rows0)
  have hsymm : ∀ {x y : TstickRow}, x.datetime ≠ y.datetime → y.datetime ≠ x.datetime :=
    fun h hEq => h hEq.symm
  have hne1 : List.Pairwise (fun a b : TstickRow => a.datetime ≠ b.datetime)
      (List.insertionSort rowLe (dedupUnique rows0)) :=
    (hperm.pairwise_iff hsymm).mpr (dedupUnique_pairwise_ne rows0)
  have hsorted : List.Pairwise rowLe (List.insertionSort rowLe (dedupUnique rows0)) :=
    List.sorted_insertionSort rowLe (dedupUnique rows0)
  have hsub : List.Sublist (dropDupFirstGo [] (List.insertionSort rowLe (dedupUnique rows0)))
      (List.insertionSort rowLe (dedupUnique rows0)) :=
    dropDupFirstGo_sublist _ []
  exact ((hsorted.sublist hsub).and (hne1.sublist hsub)).imp
    (fun h => tsLe_and_ne_lt _ _ h.1 h.2)

/-- Shape inversion for a successful `read_tstick_data` run: the rows are
exactly the dedup-sort-dropdup pipeline applied to some parsed row list and
the depth coordinate is `zCoords`. -/
theorem read_tstick_ok_shape (files : List (List String)) (rate : Nat) (ds : TstickDS)
    (h : read_tstick_data files rate = .ok ds) :
    ∃ rows0, ds = ⟨dropDupFirstGo [] (List.insertionSort rowLe (dedupUnique rows0)), zCoords⟩ := by
  simp only [read_tstick_data] at h
  split at h
  · exact Except.noConfusion h
  · split at h
    · injection h with h2
      exact ⟨_, h2.symm⟩
    · exact Except.noConfusion h

/-! ### Concrete demonstration inputs -/

def demoTestLines : List String :=
  ["Start time: 07/28/2025 00:00:00.000000", "Data1", "Time\tForce",
   "0.0\t1.0", "1.0\t5.0", "2.0\t2.0"]

def demoSbeLineLate : String := "[2025-01-01 00:00:02.000] # 1.0, 2.0, 3.0, 4.0, 5.0"

def demoSbeLineEarly : String := "[2025-01-01 00:00:01.000] # 1.5, 2.0, 3.5, 4.5, 5.0"

def demoSbeRows : List SbeRow := [⟨mkTs 2025 7 27 22 0 0 0, 1, 2, 3⟩]

def demoDensityHeaderFile : List String :=
  ["# start_time = 2025-06-01 [instrument time]", "*END*",
   " 30.0 7.5 3.0 1.5 1450.0 1025.0 0.0"]

def demoDensityOut : List DensityOut :=
  [⟨mkTs 2025 1 1 12 0 0 0, ⟨30, Q.norm 15 2, 3, Q.norm 3 2, 1450, 1025, 0⟩⟩]

def envSbeOnly : EnvData := ⟨some demoSbeRows, none, none⟩

def envBoth : EnvData := ⟨some demoSbeRows, none, some demoDensityOut⟩

def demoTLine1 : String :=
  "[2025-01-01 00:00:01.000] 2025-01-01T00:00:00 1.0 2.0 3.0 4.0 5.0 6.0 7.0 8.0 9.0 10.0 11.0 12.0 13.0 14.0 15.0 16.0 "

def demoTLine2 : String :=
  "[2025-01-01 00:00:02.000] 2025-01-01T00:00:00 1.0 2.0 3.0 4.0 5.0 6.0 7.0 8.0 9.0 10.0 11.0 12.0 13.0 14.0 15.0 16.0 "

def demoTstickFiles : List (List String) := [[demoTLine2, demoTLine1]]

def demoTemps16 : List (Option Q) := (List.range 16).map (fun i => some (qi (i + 1)))

def demoSortedTstickDS : TstickDS :=
  ⟨[⟨some (mkTs 2025 1 1 0 0 1 0), demoTemps16⟩,
    ⟨some (mkTs 2025 1 1 0 0 2 0), demoTemps16⟩], zCoords⟩

def demoLocSbe : List SbeRow := [⟨10, 1, 2, 3⟩, ⟨14, 4, 5, 6⟩]

def demoLocDen : List DensityOut :=
  [⟨10, ⟨1, 2, 3, 4, 5, 6, 0⟩⟩, ⟨14, ⟨7, 8, 9, 10, 11, 12, 0⟩⟩]

def demoLocTstick : TstickDS := ⟨[⟨some 10, [some 1]⟩, ⟨some 14, [some 2]⟩], zCoords⟩

/-! ### Claim theorems -/

/-- C1: for every environmental table with at least one row and every
target timestamp, each of the three locator instances
(`find_closest_timestamp`, `find_closest_density`, `find_closest_tstick`)
returns the row whose timestamp minimizes the absolute time difference to
the target, and on ties the row with the earliest index. For the T-stick
instance the table's timestamps are assumed valid (no `NaT`), matching the
spec's `EnvironmentalTable` data model. -/
theorem locator_first_argmin :
    (∀ (ds : List SbeRow) (target : Int), ds ≠ [] → ∃ i,
        isClosestFirst (ds.map (fun r => r.datetime)) target i ∧
        find_closest_timestamp ds target =
          .ok ((ds.getD i default).datetime, (ds.getD i default).T_deg,
               (ds.getD i default).Sal, (ds.getD i default).SV)) ∧
    (∀ (ds : List DensityOut) (target : Int), ds ≠ [] → ∃ i,
        isClosestFirst (ds.map (fun r => r.datetime)) target i ∧
        find_closest_density ds target =
          .ok ((ds.getD i default).datetime, (ds.getD i default).row.temperature,
               (ds.getD i default).row.salinity, (ds.getD i default).row.soundVelocity,
               (ds.getD i default).row.densityV)) ∧
    (∀ (ds : TstickDS) (target : Int), ds.rows ≠ [] →
        (∀ r ∈ ds.rows, r.datetime.isSome = true) → ∃ i,
        isClosestFirst (ds.rows.map (fun r => r.datetime.getD 0)) target i ∧
        find_closest_tstick (some ds) target =
          .ok (some (ds.rows.getD i default).datetime,
               some (ds.rows.getD i default).temps)) :=
  ⟨find_closest_timestamp_spec, find_closest_density_spec, find_closest_tstick_spec⟩

theorem locator_first_argmin_witness :
    (∃ i, isClosestFirst (demoLocSbe.map (fun r => r.datetime)) 12 i ∧
        find_closest_timestamp demoLocSbe 12 =
          .ok ((demoLocSbe.getD i default).datetime, (demoLocSbe.getD i default).T_deg,
               (demoLocSbe.getD i default).Sal, (demoLocSbe.getD i default).SV)) ∧
    (∃ i, isClosestFirst (demoLocDen.map (fun r => r.datetime)) 12 i ∧
        find_closest_density demoLocDen 12 =
          .ok ((demoLocDen.getD i default).datetime,
               (demoLocDen.getD i default).row.temperature,
               (demoLocDen.getD i default).row.salinity,
               (demoLocDen.getD i default).row.soundVelocity,
               (demoLocDen.getD i default).row.densityV)) ∧
    (∃ i, isClosestFirst (demoLocTstick.rows.map (fun r => r.datetime.getD 0)) 12 i ∧
        find_closest_tstick (some demoLocTstick) 12 =
          .ok (some (demoLocTstick.rows.getD i default).datetime,
               some (demoLocTstick.rows.getD i default).temps)) :=
  ⟨locator_first_argmin.1 demoLocSbe 12 (by decide),
   locator_first_argmin.2.1 demoLocDen 12 (by decide),
   locator_first_argmin.2.2 demoLocTstick 12 (by decide) (by decide)⟩

/-- C2 (code bug): on the example test file, with the CTD stream present
and the density stream absent, `_process_test_file` yields no row at all —
`_create_info_file` formats the `'N/A'` default with the `.4f` float code
and the resulting `ValueError` suppresses the row.  With the density
stream present a row is emitted, but its `ctd_*` fields carry the density
stream's reading; the CTD reading (temperature 1 here) is computed into
`sbe_*` keys that neither the row nor the info file ever reads. -/
theorem row_suppressed_and_ctd_dropped :
    processTestFile "Test02_demo.txt" demoTestLines envSbeOnly = none ∧
    processTestFile "Test02_demo.txt" demoTestLines envBoth =
      some { measurementFile := "Test02_demo.txt"
           , experimentPeakTime := "2025-07-27 22:16:01."
           , ctd_time := "2025-01-01 12:00:00."
           , ctd_T := some (Q.norm 15 2)
           , ctd_S := some 30
           , ctd_SV := some 1450
           , ctd_rho := some 1025
           , tstick_time := "N/A", tstick_profile := "N/A", caution := "" } ∧
    (findClosestMeasurements (mkTs 2025 7 27 22 16 1 0) envBoth).map
        (fun c => (c.sbe_T, c.ctd_T)) = .ok (some 1, some (Q.norm 15 2)) := by
  decide

/-- C3 counterexample: two of the three environmental parsers *raise* on a
glob that matches nothing instead of returning an absent result — the
density parser raises `FileNotFoundError`, the T-stick parser raises
`ValueError`. -/
theorem parsers_raise_on_empty_counterexample :
    process_sbe37cnv_data [] = .error .fileNotFound ∧
    read_tstick_data [] 10 = .error .noValidData := by decide

/-- C3 amended: only the CTD parser returns an absent (`None`) result on an
empty glob or on files without valid rows; the density parser raises
`FileNotFoundError` on an empty glob and `IndexError` on files with no
valid rows; the T-stick parser raises `ValueError` in both situations. -/
theorem parser_empty_input_behaviour :
    ∀ rate : Nat,
      read_sbe_data [] = none ∧
      read_sbe_data [["no valid line"]] = none ∧
      process_sbe37cnv_data [] = .error .fileNotFound ∧
      process_sbe37cnv_data [["*END*"]] = .error .emptyData ∧
      read_tstick_data [] rate = .error .noValidData ∧
      read_tstick_data [["no valid line"]] rate = .error .noValidData := by
  intro rate
  exact ⟨by decide, by decide, by decide, by decide, rfl, rfl⟩

/-- C4 counterexample: the CTD parser preserves encounter order — a file
whose valid lines are in decreasing timestamp order yields a table whose
timestamps strictly decrease, so the claimed sorted-and-deduplicated
invariant fails for `read_sbe_data`. -/
theorem ctd_table_unsorted_counterexample :
    (read_sbe_data [[demoSbeLineLate, demoSbeLineEarly]]).map
      (fun rows => rows.map (fun r => r.datetime)) =
      some [mkTs 2025 1 1 0 0 2 0, mkTs 2025 1 1 0 0 1 0] ∧
    mkTs 2025 1 1 0 0 1 0 < mkTs 2025 1 1 0 0 2 0 := by decide

/-- C4 amended: only the temperature-stick parser enforces strictly
increasing timestamps, and it removes *every* row whose timestamp is
duplicated (keeping none of the occurrences, `keep=False`) before sorting
ascending (rows with unparseable timestamps sort last); the CTD and
density parsers keep rows in encounter order without sorting or
deduplication. -/
theorem tstick_strictly_increasing :
    ∀ (files : List (List String)) (rate : Nat) (ds : TstickDS),
      read_tstick_data files rate = .ok ds →
      List.Pairwise (fun a b : Option Int => tsLt a b = true)
        (ds.rows.map (fun r => r.datetime)) := by
  intro files rate ds h
  obtain ⟨rows0, rfl⟩ := read_tstick_ok_shape files rate ds h
  exact List.pairwise_map.mpr (tstick_pipeline_pairwise rows0)

theorem tstick_strictly_increasing_witness :
    read_tstick_data demoTstickFiles 10 = .ok demoSortedTstickDS ∧
    List.Pairwise (fun a b : Option Int => tsLt a b = true)
      (demoSortedTstickDS.rows.map (fun r => r.datetime)) :=
  ⟨by decide, tstick_strictly_increasing demoTstickFiles 10 demoSortedTstickDS (by decide)⟩

/-- C5 counterexample: with header `# start_time = 2025-06-01 [...]` and
Julian time `1.5`, the reconstructed timestamp is 2025-01-01 12:00:00 —
the Julian day-of-year is measured from January 1 of the header's *year* —
not the claimed 2025-06-01 12:00:00. -/
theorem julian_base_counterexample :
    process_sbe37cnv_data [demoDensityHeaderFile] = .ok demoDensityOut ∧
    demoDensityOut.map (fun r => r.datetime) = [mkTs 2025 1 1 12 0 0 0] ∧
    mkTs 2025 1 1 12 0 0 0 ≠ mkTs 2025 6 1 12 0 0 0 := by decide

/-- C5 amended: the density parser reconstructs each timestamp as
January 1 of the year taken from the `# start_time = ...` header plus
`julian - 1` days (falling back to the fixed year 2025 when the header is
missing or unparseable); for the header `2025-06-01 [...]` and Julian time
`1.5` the result is 2025-01-01 12:00:00. -/
theorem julian_reconstruction_jan_first_base :
    ((process_sbe37cnv_data [demoDensityHeaderFile]).map
        (fun rows => rows.map (fun r => r.datetime)) = .ok [mkTs 2025 1 1 12 0 0 0]) ∧
    ((process_sbe37cnv_data [["*END*", " 1.0 2.0 3.0 1.5 4.0 5.0 0.0"]]).map
        (fun rows => rows.map (fun r => r.datetime)) = .ok [mkTs 2025 1 1 12 0 0 0]) ∧
    ((process_sbe37cnv_data
        [["# start_time = garbage", "*END*", " 1.0 2.0 3.0 1.5 4.0 5.0 0.0"]]).map
        (fun rows => rows.map (fun r => r.datetime)) = .ok [mkTs 2025 1 1 12 0 0 0]) := by
  decide

/-- C6 counterexample: a density stream whose files contain a `*END*`
marker but no valid data row makes `process_sbe37cnv_data` raise
`IndexError`, which the per-stream handlers do not catch: the outer
handler empties the whole environment dict, the already-loaded CTD stream
is discarded, and the folder's test files are skipped. -/
theorem density_empty_rows_aborts_folder :
    loadEnvironmentalData [[demoSbeLineEarly]] [] [["*END*"]] = none ∧
    (read_sbe_data [[demoSbeLineEarly]]).isSome = true ∧
    processSingleExperiment [[demoSbeLineEarly]] [] [["*END*"]]
      [("Test02_demo.txt", demoTestLines)] = none := by decide

/-- C6 amended: the loader degrades per stream only for the exception
types its inner handlers list — a density `FileNotFoundError`/`ValueError`
or a T-stick `ValueError` degrades just that stream while the CTD and the
other streams keep their loads — but a density `IndexError` (files with
`*END*` and zero valid rows) reaches the outer handler, clears all three
streams, and the folder's test files are not processed. -/
theorem environment_load_degradation :
    ∀ (s t d : List (List String)) (tests : List (String × List String)),
      (∀ ds, process_sbe37cnv_data d = .ok ds →
          loadEnvironmentalData s t d = some ⟨read_sbe_data s, tstickLoad t, some ds⟩) ∧
      ((process_sbe37cnv_data d = .error .fileNotFound ∨
          process_sbe37cnv_data d = .error .endMarkerMissing) →
          loadEnvironmentalData s t d = some ⟨read_sbe_data s, tstickLoad t, none⟩) ∧
      (process_sbe37cnv_data d = .error .emptyData →
          loadEnvironmentalData s t d = none) ∧
      (read_tstick_data t 10 = .error .noValidData → tstickLoad t = none) ∧
      (loadEnvironmentalData s t d = none →
          processSingleExperiment s t d tests = none) := by
  intro s t d tests
  refine ⟨?_, ?_, ?_, ?_, ?_⟩
  · intro ds h
    simp only [loadEnvironmentalData]
    rw [h]
  · rintro (h | h) <;> (simp only [loadEnvironmentalData]; rw [h])
  · intro h
    simp only [loadEnvironmentalData]
    rw [h]
  · intro h
    simp only [tstickLoad]
    rw [h]
  · intro h
    simp only [processSingleExperiment]
    rw [h]

theorem environment_load_degradation_witness :
    loadEnvironmentalData [[demoSbeLineEarly]] [] [demoDensityHeaderFile] =
      some ⟨read_sbe_data [[demoSbeLineEarly]], tstickLoad [], some demoDensityOut⟩ ∧
    loadEnvironmentalData [[demoSbeLineEarly]] [] [["*END*"]] = none ∧
    tstickLoad [] = none :=
  ⟨(environment_load_degradation [[demoSbeLineEarly]] [] [demoDensityHeaderFile] []).1
      demoDensityOut (by decide),
   (environment_load_degradation [[demoSbeLineEarly]] [] [["*END*"]] []).2.2.1 (by decide),
   (environment_load_degradation [] [] [] []).2.2.2.1 (by decide)⟩

/-- C7: on a table with zero rows every locator instance fails with the
empty-table error (the `ValueError` of `np.argmin` on an empty array) and
never returns a default or zero value. -/
theorem locator_empty_table_fails :
    ∀ target : Int,
      find_closest_timestamp [] target = .error .emptyTable ∧
      find_closest_density [] target = .error .emptyTable ∧
      find_closest_tstick (some ⟨[], zCoords⟩) target = .error .emptyTable :=
  fun _ => ⟨rfl, rfl, rfl⟩

/-- C8: the mechanical-test parser subtracts the fixed 1 h 44 min offset
from the `Start time:` line and rewrites it annotated as corrected, and
the peak timestamp is the corrected start plus the time offset of the
first force argmax: on the example file the corrected start is
2025-07-27 22:16:00, the peak index is 1, and the peak timestamp is
2025-07-27 22:16:01 (`argmaxIdx` takes the first occurrence on ties). -/
theorem start_time_correction_and_peak :
    read_data demoTestLines =
      .ok (["Start time (Corrected, UTC): 07/27/2025 22:16:00"], [0, 1, 2], [1, 5, 2],
           some (mkTs 2025 7 27 22 16 0 0)) ∧
    mkTs 2025 7 28 0 0 0 0 - (1 * 3600 + 44 * 60) * 1000000 = mkTs 2025 7 27 22 16 0 0 ∧
    argmaxIdx [1, 5, 2] = 1 ∧
    peakTimestamp (mkTs 2025 7 27 22 16 0 0) [0, 1, 2] [1, 5, 2] =
      mkTs 2025 7 27 22 16 1 0 ∧
    argmaxIdx [5, 5, 2] = 0 := by decide

/-- C9: every dataset accepted by the temperature-stick parser carries the
fixed 16-point depth grid `z_i = 0.02 * i - 0.07`, and the
`downsample_rate` parameter has no effect on the result. -/
theorem tstick_depth_grid_fixed :
    ∀ (files : List (List String)) (r1 r2 : Nat),
      read_tstick_data files r1 = read_tstick_data files r2 ∧
      (∀ ds, read_tstick_data files r1 = .ok ds →
        ds.z.length = 16 ∧
        ∀ i, i < 16 → ds.z.getD i 0 = ((qi i).mul (dec 2 2)).sub (dec 7 2)) := by
  intro files r1 r2
  refine ⟨rfl, ?_⟩
  intro ds h
  obtain ⟨rows0, rfl⟩ := read_tstick_ok_shape files r1 ds h
  constructor
  · show zCoords.length = 16
    decide
  · show ∀ i, i < 16 → zCoords.getD i 0 = ((qi i).mul (dec 2 2)).sub (dec 7 2)
    decide

theorem tstick_depth_grid_fixed_witness :
    read_tstick_data demoTstickFiles 3 = read_tstick_data demoTstickFiles 99 ∧
    read_tstick_data demoTstickFiles 3 = .ok demoSortedTstickDS ∧
    demoSortedTstickDS.z.length = 16 ∧
    demoSortedTstickDS.z.getD 3 0 = ((qi 3).mul (dec 2 2)).sub (dec 7 2) :=
  ⟨(tstick_depth_grid_fixed demoTstickFiles 3 99).1,
   by decide,
   ((tstick_depth_grid_fixed demoTstickFiles 3 99).2 demoSortedTstickDS (by decide)).1,
   ((tstick_depth_grid_fixed demoTstickFiles 3 99).2 demoSortedTstickDS (by decide)).2
     3 (by decide)⟩

/-- C10: `find_closest_tstick` called with a `None` dataset — the
orchestrator's absent-stream representation — returns the `(None, None)`
pair for every target timestamp instead of raising. -/
theorem tstick_locator_none_pair :
    ∀ target : Int, find_closest_tstick none target = .ok (none, none) :=
  fun _ => rfl

end IceAnalyzer
